import Mathlib

/-!
Verification of the pixel-runner game core (src/src/App.tsx).

Shallow embedding: JavaScript numbers holding fractional quantities
(positions, velocities, speed, wall-clock times, random draws) are modelled
as `ℚ`; integral counters (score, animation frame) as `ℕ`.  The per-frame
`gameLoop` callback, the `jump` and `startGame` handlers and the
collision `useEffect` become pure step functions on an explicit world
state; `Date.now()` and `Math.random()` draws are inputs per tick.
-/

namespace PixelRunner

/-- `interface Player` (App.tsx lines 4-13). -/
structure Player where
  x : ℚ
  y : ℚ
  width : ℚ
  height : ℚ
  velocityY : ℚ
  isJumping : Bool
  onGround : Bool
  animFrame : ℕ
  deriving Repr, DecidableEq

/-- The six obstacle variants (`type` field of `interface Obstacle`). -/
inductive ObstacleType where
  | cactus | rock | spike | tree | crystal | mushroom
  deriving Repr, DecidableEq

/-- `interface Obstacle` (App.tsx lines 15-21). -/
structure Obstacle where
  x : ℚ
  y : ℚ
  width : ℚ
  height : ℚ
  type : ObstacleType
  deriving Repr, DecidableEq

/-- `interface GameState` (App.tsx lines 23-28).  `score` is integral. -/
structure GameState where
  isPlaying : Bool
  isGameOver : Bool
  score : ℕ
  speed : ℚ
  deriving Repr, DecidableEq

-- Constants, App.tsx lines 30-36.
def CANVAS_WIDTH : ℚ := 800
def CANVAS_HEIGHT : ℚ := 400
def GROUND_HEIGHT : ℚ := 80
def GRAVITY : ℚ := 8/10
def JUMP_FORCE : ℚ := -16
def INITIAL_SPEED : ℚ := 4
def SPEED_INCREMENT : ℚ := 2/1000

/-- `checkCollision` (App.tsx lines 378-383), verbatim from the source:
the player hitbox is inset by 6 on the left, right and top, while the
bottom edge is the full sprite bottom. -/
def checkCollision (player : Player) (obstacle : Obstacle) : Bool :=
  decide (player.x + 6 < obstacle.x + obstacle.width) &&
  decide (player.x + player.width - 6 > obstacle.x) &&
  decide (player.y + 6 < obstacle.y + obstacle.height) &&
  decide (player.y + player.height > obstacle.y)

/-- The six `(type, width, height)` presets of `generateObstacle`
(App.tsx lines 386-393). -/
def obstacleTypes : List (ObstacleType × ℚ × ℚ) :=
  [ (ObstacleType.cactus, 24, 48)
  , (ObstacleType.rock, 24, 24)
  , (ObstacleType.spike, 32, 16)
  , (ObstacleType.tree, 24, 56)
  , (ObstacleType.crystal, 24, 40)
  , (ObstacleType.mushroom, 24, 32) ]

/-- `generateObstacle` (App.tsx lines 385-403); `r` stands for the
`Math.random()` draw in `[0,1)` used to pick the variant index. -/
def generateObstacle (r : ℚ) : Obstacle :=
  let obstacleType := obstacleTypes.getD (Int.toNat ⌊r * 6⌋)
      (ObstacleType.cactus, 24, 48)
  { x := CANVAS_WIDTH
  , y := CANVAS_HEIGHT - GROUND_HEIGHT - obstacleType.2.2
  , width := obstacleType.2.1
  , height := obstacleType.2.2
  , type := obstacleType.1 }

/-- The `setPlayer` updater inside `gameLoop` (App.tsx lines 414-436):
gravity added to velocity, velocity added to y, then ground clamping. -/
def stepPlayer (animationFrame : ℕ) (prev : Player) : Player :=
  let v := prev.velocityY + GRAVITY
  let newY := prev.y + v
  let groundY := CANVAS_HEIGHT - GROUND_HEIGHT - prev.height
  if newY ≥ groundY then
    { prev with
      animFrame := animationFrame, y := groundY, velocityY := 0,
      isJumping := false, onGround := true }
  else
    { prev with
      animFrame := animationFrame, y := newY, velocityY := v,
      onGround := false }

/-- One obstacle after the per-tick leftward shift (App.tsx lines 439-442). -/
def shiftObstacle (speed : ℚ) (obstacle : Obstacle) : Obstacle :=
  { obstacle with x := obstacle.x - speed }

/-- `prev.map(... x - speed ...).filter(x + width > 0)`
(App.tsx lines 439-442). -/
def moveObstacles (speed : ℚ) (obstacles : List Obstacle) : List Obstacle :=
  (obstacles.map (shiftObstacle speed)).filter
    (fun o => decide (o.x + o.width > 0))

/-- The spawn threshold `baseInterval * speedMultiplier + Math.random() * 400`
(App.tsx lines 446-448); `rJitter` is the `Math.random()` draw in `[0,1)`. -/
def spawnInterval (speed rJitter : ℚ) : ℚ :=
  let baseInterval : ℚ := 800
  let speedMultiplier := max (3/10) (1 - (speed - INITIAL_SPEED) * (1/10))
  baseInterval * speedMultiplier + rJitter * 400

/-- The `setObstacles` updater inside `gameLoop` (App.tsx lines 438-456):
shift and cull, then possibly push a new obstacle and update the
`lastObstacleRef` timestamp.  `now` is `Date.now()`; the second component
of the result is the new `lastObstacleRef.current`. -/
def stepObstacles (speed now lastObstacle rJitter rType : ℚ)
    (obstacles : List Obstacle) : List Obstacle × ℚ :=
  let newObstacles := moveObstacles speed obstacles
  if now - lastObstacle > spawnInterval speed rJitter then
    (newObstacles ++ [generateObstacle rType], now)
  else
    (newObstacles, lastObstacle)

/-- The `setGameState` updater inside `gameLoop` (App.tsx lines 459-463). -/
def stepGameState (prev : GameState) : GameState :=
  { prev with
    score := prev.score + 1,
    speed := min (prev.speed + SPEED_INCREMENT) 12 }

/-- The whole mutable state touched by the game logic: the three React
states plus the `lastObstacleRef` and `animationFrameRef` refs. -/
structure World where
  gameState : GameState
  player : Player
  obstacles : List Obstacle
  lastObstacle : ℚ
  animationFrame : ℕ
  deriving Repr, DecidableEq

/-- One `gameLoop` invocation (App.tsx lines 405-466): a no-op unless
playing and not game over; otherwise runs the player physics, the
obstacle shift/cull/spawn and the score/speed update.  `now`, `rJitter`
and `rType` are the tick's `Date.now()` and `Math.random()` inputs. -/
def tick (now rJitter rType : ℚ) (w : World) : World :=
  if !w.gameState.isPlaying || w.gameState.isGameOver then w
  else
    let animationFrame := w.animationFrame + 1
    let player := stepPlayer animationFrame w.player
    let obs := stepObstacles w.gameState.speed now w.lastObstacle
        rJitter rType w.obstacles
    { gameState := stepGameState w.gameState
    , player := player
    , obstacles := obs.1
    , lastObstacle := obs.2
    , animationFrame := animationFrame }

/-- The `jump` callback (App.tsx lines 361-376), acting on the pair of
states it reads and writes. -/
def jump (gs : GameState) (prev : Player) : Player :=
  if !gs.isPlaying || gs.isGameOver then prev
  else if prev.onGround then
    { prev with velocityY := JUMP_FORCE, isJumping := true, onGround := false }
  else prev

/-- The collision `useEffect` (App.tsx lines 469-479): while playing and
not game over, if any live obstacle overlaps the player, set
`isGameOver` and nothing else. -/
def collisionStep (w : World) : World :=
  if !w.gameState.isPlaying || w.gameState.isGameOver then w
  else if w.obstacles.any (fun o => checkCollision w.player o) then
    { w with gameState := { w.gameState with isGameOver := true } }
  else w

/-- The initial `useState` value for the player (App.tsx lines 53-62),
which `startGame` also writes back verbatim (lines 577-586). -/
def initialPlayer : Player :=
  { x := 80, y := CANVAS_HEIGHT - GROUND_HEIGHT - 40, width := 28
  , height := 40, velocityY := 0, isJumping := false, onGround := true
  , animFrame := 0 }

/-- The initial `useState` value for the game state (App.tsx lines 46-51). -/
def initialGameState : GameState :=
  { isPlaying := false, isGameOver := false, score := 0
  , speed := INITIAL_SPEED }

/-- The world as first mounted, before any command (App.tsx lines 41-64);
`t0` is the mount wall-clock time standing in for the ref's initial 0. -/
def initialWorld (t0 : ℚ) : World :=
  { gameState := initialGameState
  , player := initialPlayer
  , obstacles := []
  , lastObstacle := t0
  , animationFrame := 0 }

/-- The `startGame` handler (App.tsx lines 570-591): resets every piece
of game state; `now` is the `Date.now()` written to `lastObstacleRef`. -/
def startGame (now : ℚ) (_w : World) : World :=
  { gameState :=
      { isPlaying := true, isGameOver := false, score := 0
      , speed := INITIAL_SPEED }
  , player := initialPlayer
  , obstacles := []
  , lastObstacle := now
  , animationFrame := 0 }

/-- The start/restart command as exposed by the UI: the start buttons are
rendered only under `!gameState.isPlaying || gameState.isGameOver`
(App.tsx line 642), so while playing and not game over the command
cannot fire and the state is untouched. -/
def startCommand (now : ℚ) (w : World) : World :=
  if w.gameState.isPlaying && !w.gameState.isGameOver then w
  else startGame now w

/-- The displayed score, `Math.floor(gameState.score / 10)`
(App.tsx line 551). -/
def displayedScore (gs : GameState) : ℕ := gs.score / 10

/-- The overlap test as the spec's words describe it for C1: the same
inset applied on all four sides of the sprite. -/
def specCollisionAllInset (inset : ℚ) (player : Player)
    (obstacle : Obstacle) : Bool :=
  decide (player.x + inset < obstacle.x + obstacle.width) &&
  decide (player.x + player.width - inset > obstacle.x) &&
  decide (player.y + inset < obstacle.y + obstacle.height) &&
  decide (player.y + player.height - inset > obstacle.y)

/-- `n` successive game-loop ticks, each with `Date.now() = 0` and both
`Math.random()` draws `0` (a run during which no spawn threshold is
crossed, so no obstacles and hence no collisions occur). -/
def runTicks (n : ℕ) (w : World) : World :=
  match n with
  | 0 => w
  | n + 1 => tick 0 0 0 (runTicks n w)

/-- The worlds reachable from mount through the commands the UI can
issue: game-loop ticks, jump, the collision effect and start/restart. -/
inductive Reachable : World → Prop where
  | init (t0 : ℚ) : Reachable (initialWorld t0)
  | tick (now rJitter rType : ℚ) {w : World} :
      Reachable w → Reachable (tick now rJitter rType w)
  | jumpCmd {w : World} :
      Reachable w → Reachable { w with player := jump w.gameState w.player }
  | collide {w : World} : Reachable w → Reachable (collisionStep w)
  | start (now : ℚ) {w : World} :
      Reachable w → Reachable (startCommand now w)

/-- A freshly started game (the C7 and C8 scenarios begin here). -/
def startedWorld : World := startGame 0 (initialWorld 0)

/-- The started world right after one accepted jump command. -/
def jumpWorld : World :=
  { startedWorld with
    player := jump startedWorld.gameState startedWorld.player }

/-- A concrete obstacle whose top edge lies strictly between the
player's full bottom edge and the bottom edge inset by 6: it separates
the source's collision test from the all-sides-inset reading. -/
def lowObstacle : Obstacle :=
  { x := 80, y := 317, width := 24, height := 48, type := ObstacleType.cactus }

/-- A concrete obstacle squarely overlapping `initialPlayer`. -/
def hitObstacle : Obstacle :=
  { x := 80, y := 272, width := 24, height := 48, type := ObstacleType.cactus }

/-- A mid-round world: playing, some score and speed, one obstacle
overlapping the player. -/
def collidingWorld : World :=
  { gameState := { isPlaying := true, isGameOver := false, score := 57, speed := 5 }
  , player := initialPlayer
  , obstacles := [hitObstacle]
  , lastObstacle := 0
  , animationFrame := 57 }

/-!
## Claim theorems
-/

theorem checkCollision_eq_true (player : Player) (obstacle : Obstacle) :
    checkCollision player obstacle = true ↔
      (player.x + 6 < obstacle.x + obstacle.width ∧
       player.x + player.width - 6 > obstacle.x ∧
       player.y + 6 < obstacle.y + obstacle.height ∧
       player.y + player.height > obstacle.y) := by
  simp [checkCollision, and_assoc]

theorem specCollisionAllInset_eq_true (inset : ℚ) (player : Player)
    (obstacle : Obstacle) :
    specCollisionAllInset inset player obstacle = true ↔
      (player.x + inset < obstacle.x + obstacle.width ∧
       player.x + player.width - inset > obstacle.x ∧
       player.y + inset < obstacle.y + obstacle.height ∧
       player.y + player.height - inset > obstacle.y) := by
  simp [specCollisionAllInset, and_assoc]

/-- C1, counterexample: the source's `checkCollision` does not inset the
bottom edge of the player hitbox, so there is a player/obstacle pair
(the obstacle's top lies 3 px above the player's full bottom) that the
source reports as colliding while the all-four-sides-inset overlap test
of the claim reports no collision. -/
theorem checkCollision_not_all_inset :
    checkCollision initialPlayer lowObstacle = true ∧
    specCollisionAllInset 6 initialPlayer lowObstacle = false := by
  constructor
  · rw [checkCollision_eq_true]
    norm_num [initialPlayer, lowObstacle, CANVAS_HEIGHT, GROUND_HEIGHT]
  · rw [Bool.eq_false_iff, Ne, specCollisionAllInset_eq_true]
    norm_num [initialPlayer, lowObstacle, CANVAS_HEIGHT, GROUND_HEIGHT]

/-- C1, amended: `checkCollision` returns true iff the four axis-aligned
overlap conditions hold on a player hitbox inset by 6 px on the left,
right and top sides, while the bottom condition uses the full sprite
bottom with no inset. -/
theorem checkCollision_iff (player : Player) (obstacle : Obstacle) :
    checkCollision player obstacle = true ↔
      (player.x + 6 < obstacle.x + obstacle.width ∧
       player.x + player.width - 6 > obstacle.x ∧
       player.y + 6 < obstacle.y + obstacle.height ∧
       player.y + player.height > obstacle.y) :=
  checkCollision_eq_true player obstacle

/-- C2: after any tick taken while playing and not game over, the player
satisfies `y ≤ CANVAS_HEIGHT - GROUND_HEIGHT - height`; on-ground holds
iff `y` equals that clamp; and whenever on-ground holds after the tick
the velocity is exactly 0. -/
theorem tick_player_invariant (now rJitter rType : ℚ) (w : World)
    (hp : w.gameState.isPlaying = true)
    (hg : w.gameState.isGameOver = false) :
    ((tick now rJitter rType w).player.y ≤
        CANVAS_HEIGHT - GROUND_HEIGHT - (tick now rJitter rType w).player.height) ∧
    ((tick now rJitter rType w).player.onGround = true ↔
        (tick now rJitter rType w).player.y =
          CANVAS_HEIGHT - GROUND_HEIGHT - (tick now rJitter rType w).player.height) ∧
    ((tick now rJitter rType w).player.onGround = true →
        (tick now rJitter rType w).player.velocityY = 0) := by
  have htick : (tick now rJitter rType w).player =
      stepPlayer (w.animationFrame + 1) w.player := by
    simp [tick, hp, hg]
  rw [htick]
  simp only [stepPlayer]
  split_ifs with h
  · simp
  · have h' : w.player.y + (w.player.velocityY + GRAVITY) <
        CANVAS_HEIGHT - GROUND_HEIGHT - w.player.height := not_le.mp h
    simp
    exact ⟨le_of_lt h', fun hEq => absurd hEq (ne_of_lt h')⟩

/-- C2, witness: the invariant instantiated on the first tick of a
freshly started game. -/
theorem tick_player_invariant_witness :
    startedWorld.gameState.isPlaying = true ∧
    startedWorld.gameState.isGameOver = false ∧
    ((tick 0 0 0 startedWorld).player.onGround = true ↔
      (tick 0 0 0 startedWorld).player.y =
        CANVAS_HEIGHT - GROUND_HEIGHT - (tick 0 0 0 startedWorld).player.height) :=
  ⟨rfl, rfl, (tick_player_invariant 0 0 0 startedWorld rfl rfl).2.1⟩

/-- C5: jump is a no-op unless playing, not game over and on-ground;
when accepted it sets the velocity to the impulse `-16` and clears
on-ground; while airborne it never changes the player, and jump is
idempotent. -/
theorem jump_no_op_and_impulse (gs : GameState) (p : Player) :
    (¬(gs.isPlaying = true ∧ gs.isGameOver = false ∧ p.onGround = true) →
        jump gs p = p) ∧
    (gs.isPlaying = true → gs.isGameOver = false → p.onGround = true →
        jump gs p =
          { p with velocityY := JUMP_FORCE, isJumping := true,
                   onGround := false }) ∧
    (p.onGround = false → jump gs p = p) ∧
    jump gs (jump gs p) = jump gs p := by
  cases hP : gs.isPlaying <;> cases hG : gs.isGameOver <;>
    cases hO : p.onGround <;> simp [jump, hP, hG, hO]

/-- C5, witness: the accepted-jump equation on a freshly started game. -/
theorem jump_no_op_and_impulse_witness :
    jump startedWorld.gameState initialPlayer =
      { initialPlayer with
        velocityY := JUMP_FORCE, isJumping := true, onGround := false } :=
  (jump_no_op_and_impulse startedWorld.gameState initialPlayer).2.1 rfl rfl rfl

theorem obstacleTypes_getD_width_pos (i : ℕ) :
    0 < (obstacleTypes.getD i (ObstacleType.cactus, 24, 48)).2.1 := by
  rcases i with _ | _ | _ | _ | _ | _ | i <;>
    norm_num [obstacleTypes, List.getD_cons_zero, List.getD_cons_succ,
      List.getD_nil]

theorem generateObstacle_width_pos (r : ℚ) : 0 < (generateObstacle r).width := by
  simpa [generateObstacle] using obstacleTypes_getD_width_pos (Int.toNat ⌊r * 6⌋)

theorem mem_moveObstacles {speed : ℚ} {obstacles : List Obstacle}
    {o' : Obstacle} :
    o' ∈ moveObstacles speed obstacles ↔
      (∃ o ∈ obstacles, shiftObstacle speed o = o') ∧ 0 < o'.x + o'.width := by
  constructor
  · intro h
    rw [moveObstacles, List.mem_filter] at h
    obtain ⟨hm, hf⟩ := h
    rw [List.mem_map] at hm
    obtain ⟨o, ho, rfl⟩ := hm
    exact ⟨⟨o, ho, rfl⟩, by simpa using hf⟩
  · rintro ⟨⟨o, ho, rfl⟩, hpos⟩
    rw [moveObstacles, List.mem_filter]
    exact ⟨List.mem_map_of_mem _ ho, by simpa using hpos⟩

theorem tick_obstacles_eq (now rJitter rType : ℚ) (w : World)
    (hp : w.gameState.isPlaying = true)
    (hg : w.gameState.isGameOver = false) :
    (tick now rJitter rType w).obstacles =
      (stepObstacles w.gameState.speed now w.lastObstacle rJitter rType
        w.obstacles).1 := by
  simp [tick, hp, hg]

/-- C3: on a tick taken while playing and not game over, each live
obstacle is shifted left by exactly the current speed with all other
fields unchanged, and its shifted copy survives into the new obstacle
list iff its right edge is still right of the left boundary
(`x + width > 0` after the shift). -/
theorem tick_obstacle_motion (now rJitter rType : ℚ) (w : World)
    (hp : w.gameState.isPlaying = true)
    (hg : w.gameState.isGameOver = false) :
    ∀ o ∈ w.obstacles,
      (shiftObstacle w.gameState.speed o ∈ (tick now rJitter rType w).obstacles ↔
        0 < o.x - w.gameState.speed + o.width) ∧
      (shiftObstacle w.gameState.speed o).x = o.x - w.gameState.speed ∧
      (shiftObstacle w.gameState.speed o).y = o.y ∧
      (shiftObstacle w.gameState.speed o).width = o.width ∧
      (shiftObstacle w.gameState.speed o).height = o.height ∧
      (shiftObstacle w.gameState.speed o).type = o.type := by
  intro o ho
  refine ⟨?_, rfl, rfl, rfl, rfl, rfl⟩
  rw [tick_obstacles_eq now rJitter rType w hp hg]
  simp only [stepObstacles]
  split_ifs with hspawn
  · dsimp only
    constructor
    · intro hmem
      rcases List.mem_append.mp hmem with hmem | hmem
      · have := (mem_moveObstacles.mp hmem).2
        simpa [shiftObstacle] using this
      · have heq : shiftObstacle w.gameState.speed o = generateObstacle rType := by
          simpa using hmem
        have hx : (shiftObstacle w.gameState.speed o).x = CANVAS_WIDTH := by
          rw [heq]; rfl
        have hw : 0 < (shiftObstacle w.gameState.speed o).width := by
          rw [heq]; exact generateObstacle_width_pos rType
        have hpos : 0 < (shiftObstacle w.gameState.speed o).x +
            (shiftObstacle w.gameState.speed o).width := by
          rw [hx]
          have h800 : (0:ℚ) < CANVAS_WIDTH := by norm_num [CANVAS_WIDTH]
          linarith
        simpa [shiftObstacle] using hpos
    · intro hpos
      refine List.mem_append.mpr (Or.inl ?_)
      exact mem_moveObstacles.mpr ⟨⟨o, ho, rfl⟩, by simpa [shiftObstacle] using hpos⟩
  · dsimp only
    constructor
    · intro hmem
      have := (mem_moveObstacles.mp hmem).2
      simpa [shiftObstacle] using this
    · intro hpos
      exact mem_moveObstacles.mpr ⟨⟨o, ho, rfl⟩, by simpa [shiftObstacle] using hpos⟩

/-- C3, witness: the per-field shift equations instantiated on a
concrete mid-round world. -/
theorem tick_obstacle_motion_witness :
    (shiftObstacle collidingWorld.gameState.speed hitObstacle).x =
      hitObstacle.x - collidingWorld.gameState.speed :=
  (tick_obstacle_motion 0 0 0 collidingWorld rfl rfl hitObstacle
    (by simp [collidingWorld])).2.1

/-- C6: the start/restart command (whose UI buttons exist only when not
playing or game over) issued from idle or game-over fully resets the
world: playing with score 0, speed 4, the initial player pose (x = 80,
y at the ground clamp, zero velocity, on-ground), no obstacles; issued
while playing and not game over it leaves the world unchanged. -/
theorem startCommand_reset_or_no_op (now : ℚ) (w : World) :
    ((w.gameState.isPlaying = false ∨ w.gameState.isGameOver = true) →
        startCommand now w =
          { gameState :=
              { isPlaying := true, isGameOver := false, score := 0, speed := 4 }
          , player := initialPlayer
          , obstacles := []
          , lastObstacle := now
          , animationFrame := 0 } ∧
        initialPlayer.x = 80 ∧
        initialPlayer.y = CANVAS_HEIGHT - GROUND_HEIGHT - initialPlayer.height ∧
        initialPlayer.velocityY = 0 ∧
        initialPlayer.onGround = true) ∧
    (w.gameState.isPlaying = true → w.gameState.isGameOver = false →
        startCommand now w = w) := by
  constructor
  · intro h
    have hcond : (w.gameState.isPlaying && !w.gameState.isGameOver) = false := by
      rcases h with h | h <;> simp [h]
    refine ⟨?_, rfl, ?_, rfl, rfl⟩
    · simp only [startCommand, hcond, Bool.false_eq_true, if_false]
      rfl
    · norm_num [initialPlayer, CANVAS_HEIGHT, GROUND_HEIGHT]
  · intro hp hg
    simp [startCommand, hp, hg]

/-- C6, witness: the reset applied from the idle mount state, and the
no-op applied to a running game. -/
theorem startCommand_reset_or_no_op_witness :
    startCommand 5 (initialWorld 0) =
      { gameState :=
          { isPlaying := true, isGameOver := false, score := 0, speed := 4 }
      , player := initialPlayer
      , obstacles := []
      , lastObstacle := 5
      , animationFrame := 0 } ∧
    startCommand 7 startedWorld = startedWorld :=
  ⟨((startCommand_reset_or_no_op 5 (initialWorld 0)).1 (Or.inl rfl)).1,
   (startCommand_reset_or_no_op 7 startedWorld).2 rfl rfl⟩

/-- C10: when a collision is detected while playing and not game over,
the collision effect sets `isGameOver` and changes nothing else: score,
speed, `isPlaying`, the player and the obstacle list all keep their
last-playing-tick values. -/
theorem collisionStep_only_gameOver (w : World)
    (hp : w.gameState.isPlaying = true)
    (hg : w.gameState.isGameOver = false)
    (hc : w.obstacles.any (fun o => checkCollision w.player o) = true) :
    collisionStep w =
      { w with gameState := { w.gameState with isGameOver := true } } ∧
    (collisionStep w).gameState.isPlaying = w.gameState.isPlaying ∧
    (collisionStep w).gameState.score = w.gameState.score ∧
    (collisionStep w).gameState.speed = w.gameState.speed ∧
    (collisionStep w).player = w.player ∧
    (collisionStep w).obstacles = w.obstacles := by
  have h1 : collisionStep w =
      { w with gameState := { w.gameState with isGameOver := true } } := by
    simp [collisionStep, hp, hg, hc]
  exact ⟨h1, by rw [h1], by rw [h1], by rw [h1], by rw [h1], by rw [h1]⟩

/-- C10, witness: the frame condition on a concrete colliding world. -/
theorem collisionStep_only_gameOver_witness :
    collisionStep collidingWorld =
      { collidingWorld with
        gameState := { collidingWorld.gameState with isGameOver := true } } :=
  (collisionStep_only_gameOver collidingWorld rfl rfl (by
    have h : checkCollision initialPlayer hitObstacle = true := by
      rw [checkCollision_eq_true]
      norm_num [initialPlayer, hitObstacle, CANVAS_HEIGHT, GROUND_HEIGHT]
    simp [collidingWorld, h])).1

theorem tick_skip (now rJitter rType : ℚ) (w : World)
    (h : (!w.gameState.isPlaying || w.gameState.isGameOver) = true) :
    tick now rJitter rType w = w := by
  simp [tick, h]

theorem tick_playing (now rJitter rType : ℚ) (w : World)
    (hp : w.gameState.isPlaying = true)
    (hg : w.gameState.isGameOver = false) :
    tick now rJitter rType w =
      { gameState := stepGameState w.gameState
      , player := stepPlayer (w.animationFrame + 1) w.player
      , obstacles := (stepObstacles w.gameState.speed now w.lastObstacle
          rJitter rType w.obstacles).1
      , lastObstacle := (stepObstacles w.gameState.speed now w.lastObstacle
          rJitter rType w.obstacles).2
      , animationFrame := w.animationFrame + 1 } := by
  simp [tick, hp, hg]

theorem collisionStep_speed (w : World) :
    (collisionStep w).gameState.speed = w.gameState.speed := by
  unfold collisionStep
  split_ifs <;> rfl

theorem tick_speed_le (now rJitter rType : ℚ) (w : World)
    (ih : w.gameState.speed ≤ 12) :
    (tick now rJitter rType w).gameState.speed ≤ 12 := by
  by_cases hguard : (!w.gameState.isPlaying || w.gameState.isGameOver) = true
  · rw [tick_skip now rJitter rType w hguard]; exact ih
  · have h' : w.gameState.isPlaying = true ∧ w.gameState.isGameOver = false := by
      simpa using hguard
    rw [tick_playing now rJitter rType w h'.1 h'.2]
    exact min_le_right _ _

theorem speed_le_cap : ∀ w, Reachable w → w.gameState.speed ≤ 12 := by
  intro w h
  induction h with
  | init t0 => norm_num [initialWorld, initialGameState, INITIAL_SPEED]
  | tick now rJitter rType hr ih => exact tick_speed_le _ _ _ _ ih
  | jumpCmd hr ih => exact ih
  | collide hr ih => rw [collisionStep_speed]; exact ih
  | start now hr ih =>
      unfold startCommand
      split_ifs
      · exact ih
      · norm_num [startGame, INITIAL_SPEED]

/-- C4: in every reachable world the speed is at most the cap 12; a tick
taken while playing and not game over adds exactly 1 to the score and
sets the speed to `min (speed + 0.002) 12`, so both are non-decreasing;
and a tick taken while game over changes nothing. -/
theorem score_speed_monotone :
    (∀ w, Reachable w → w.gameState.speed ≤ 12) ∧
    (∀ (now rJitter rType : ℚ) (w : World), w.gameState.isPlaying = true →
      w.gameState.isGameOver = false →
      (tick now rJitter rType w).gameState.score = w.gameState.score + 1 ∧
      (tick now rJitter rType w).gameState.speed =
        min (w.gameState.speed + SPEED_INCREMENT) 12 ∧
      (w.gameState.speed ≤ 12 →
        w.gameState.speed ≤ (tick now rJitter rType w).gameState.speed) ∧
      w.gameState.score ≤ (tick now rJitter rType w).gameState.score) ∧
    (∀ (now rJitter rType : ℚ) (w : World), w.gameState.isGameOver = true →
      tick now rJitter rType w = w) := by
  refine ⟨speed_le_cap, ?_, ?_⟩
  · intro now rJitter rType w hp hg
    have h := tick_playing now rJitter rType w hp hg
    rw [h]
    refine ⟨rfl, rfl, ?_, Nat.le_succ _⟩
    intro hle
    have hinc : (0:ℚ) ≤ SPEED_INCREMENT := by norm_num [SPEED_INCREMENT]
    exact le_min (by linarith) hle
  · intro now rJitter rType w hg
    exact tick_skip now rJitter rType w (by simp [hg])

/-- C4, witness: the cap at the mounted world and the score increment on
the first tick of a started game. -/
theorem score_speed_monotone_witness :
    (initialWorld 0).gameState.speed ≤ 12 ∧
    (tick 0 0 0 startedWorld).gameState.score =
      startedWorld.gameState.score + 1 :=
  ⟨score_speed_monotone.1 (initialWorld 0) (Reachable.init 0),
   (score_speed_monotone.2.1 0 0 0 startedWorld rfl rfl).1⟩

theorem obstacleTypes_getD_mem : ∀ i : ℕ, i < 6 →
    obstacleTypes.getD i (ObstacleType.cactus, 24, 48) ∈ obstacleTypes := by
  decide

theorem spawnInterval_nonneg (speed rJitter : ℚ) (h : 0 ≤ rJitter) :
    0 ≤ spawnInterval speed rJitter := by
  simp only [spawnInterval]
  have h1 : (3/10:ℚ) ≤ max (3/10) (1 - (speed - INITIAL_SPEED) * (1/10)) :=
    le_max_left _ _
  have h2 : (0:ℚ) ≤ rJitter * 400 := by positivity
  linarith

/-- C9: a tick taken while playing spawns a new obstacle iff the elapsed
wall-clock time since the last spawn exceeds
`800 * max 0.3 (1 - (speed - 4) * 0.1) + jitter` with jitter the random
draw scaled to `[0, 400)`; any spawned obstacle carries one of the six
fixed (type, width, height) presets, starts at the right edge `x = 800`,
and has its bottom exactly on the ground line. -/
theorem spawn_cadence_and_presets :
    (∀ (speed now lastObstacle rJitter rType : ℚ) (obstacles : List Obstacle),
      (now - lastObstacle > spawnInterval speed rJitter →
        stepObstacles speed now lastObstacle rJitter rType obstacles =
          (moveObstacles speed obstacles ++ [generateObstacle rType], now)) ∧
      (¬(now - lastObstacle > spawnInterval speed rJitter) →
        stepObstacles speed now lastObstacle rJitter rType obstacles =
          (moveObstacles speed obstacles, lastObstacle))) ∧
    (∀ speed rJitter : ℚ, spawnInterval speed rJitter =
        800 * max (3/10) (1 - (speed - 4) * (1/10)) + rJitter * 400) ∧
    (∀ rType : ℚ, 0 ≤ rType → rType < 1 →
      (generateObstacle rType).x = CANVAS_WIDTH ∧
      (generateObstacle rType).y + (generateObstacle rType).height =
        CANVAS_HEIGHT - GROUND_HEIGHT ∧
      ((generateObstacle rType).type, (generateObstacle rType).width,
        (generateObstacle rType).height) ∈ obstacleTypes) ∧
    (∀ (now rJitter rType : ℚ) (w : World), w.gameState.isPlaying = true →
      w.gameState.isGameOver = false →
      (tick now rJitter rType w).obstacles =
        (stepObstacles w.gameState.speed now w.lastObstacle rJitter rType
          w.obstacles).1) := by
  refine ⟨?_, ?_, ?_, ?_⟩
  · intro speed now lastObstacle rJitter rType obstacles
    constructor
    · intro h; simp [stepObstacles, h]
    · intro h; simp [stepObstacles, h]
  · intro speed rJitter
    rfl
  · intro rType h0 h1
    refine ⟨rfl, ?_, ?_⟩
    · simp only [generateObstacle]
      ring
    · have h6 : rType * 6 < 6 := by linarith
      have hfl : ⌊rType * 6⌋ < (6:ℤ) := Int.floor_lt.mpr (by exact_mod_cast h6)
      have hi : Int.toNat ⌊rType * 6⌋ < 6 := by omega
      have hmem := obstacleTypes_getD_mem _ hi
      simpa [generateObstacle] using hmem
  · intro now rJitter rType w hp hg
    exact tick_obstacles_eq now rJitter rType w hp hg

/-- C9, witness: a spawn fires for a long-elapsed tick at initial speed,
and the spawned obstacle starts at the right edge. -/
theorem spawn_cadence_and_presets_witness :
    stepObstacles 4 2000 0 0 0 [] = ([generateObstacle 0], 2000) ∧
    (generateObstacle 0).x = CANVAS_WIDTH :=
  ⟨by
    have h := (spawn_cadence_and_presets.1 4 2000 0 0 0 []).1
      (by norm_num [spawnInterval, INITIAL_SPEED, max_def])
    simpa [moveObstacles] using h,
   (spawn_cadence_and_presets.2.2.1 0 le_rfl (by norm_num)).1⟩

theorem stepPlayer_clamp (animationFrame : ℕ) (p : Player)
    (h : p.y + (p.velocityY + GRAVITY) ≥
      CANVAS_HEIGHT - GROUND_HEIGHT - p.height) :
    (stepPlayer animationFrame p).y = CANVAS_HEIGHT - GROUND_HEIGHT - p.height ∧
    (stepPlayer animationFrame p).velocityY = 0 ∧
    (stepPlayer animationFrame p).onGround = true ∧
    (stepPlayer animationFrame p).height = p.height := by
  simp only [stepPlayer]
  split_ifs
  exact ⟨rfl, rfl, rfl, rfl⟩

theorem stepPlayer_air (animationFrame : ℕ) (p : Player)
    (h : p.y + (p.velocityY + GRAVITY) <
      CANVAS_HEIGHT - GROUND_HEIGHT - p.height) :
    (stepPlayer animationFrame p).y = p.y + (p.velocityY + GRAVITY) ∧
    (stepPlayer animationFrame p).velocityY = p.velocityY + GRAVITY ∧
    (stepPlayer animationFrame p).onGround = false ∧
    (stepPlayer animationFrame p).height = p.height := by
  simp only [stepPlayer]
  split_ifs with hc
  · linarith
  · exact ⟨rfl, rfl, rfl, rfl⟩

theorem stepObstacles_no_spawn_nil (speed : ℚ) :
    stepObstacles speed 0 0 0 0 [] = ([], 0) := by
  have hns : ¬((0:ℚ) - 0 > spawnInterval speed 0) := by
    have h0 := spawnInterval_nonneg speed 0 le_rfl
    linarith
  simp only [stepObstacles, moveObstacles, List.map_nil, List.filter_nil,
    if_neg hns]

theorem runTicks_started_fields (k : ℕ) (hk : k ≤ 4000) :
    (runTicks k startedWorld).gameState.isPlaying = true ∧
    (runTicks k startedWorld).gameState.isGameOver = false ∧
    (runTicks k startedWorld).gameState.score = k ∧
    (runTicks k startedWorld).gameState.speed = 4 + (k:ℚ) * (2/1000) ∧
    (runTicks k startedWorld).player.y = initialPlayer.y ∧
    (runTicks k startedWorld).player.velocityY = 0 ∧
    (runTicks k startedWorld).player.height = 40 ∧
    (runTicks k startedWorld).player.onGround = true ∧
    (runTicks k startedWorld).obstacles = [] ∧
    (runTicks k startedWorld).lastObstacle = 0 ∧
    (runTicks k startedWorld).animationFrame = k := by
  induction k with
  | zero =>
      refine ⟨rfl, rfl, rfl, ?_, rfl, rfl, rfl, rfl, rfl, rfl, rfl⟩
      norm_num [runTicks, startedWorld, startGame, INITIAL_SPEED]
  | succ k ih =>
      have hk' : k ≤ 4000 := Nat.le_of_succ_le hk
      obtain ⟨h1, h2, h3, h4, h5, h6, h7, h8, h9, h10, h11⟩ := ih hk'
      have ht := tick_playing 0 0 0 (runTicks k startedWorld) h1 h2
      have hy : (runTicks k startedWorld).player.y +
          ((runTicks k startedWorld).player.velocityY + GRAVITY) ≥
          CANVAS_HEIGHT - GROUND_HEIGHT -
            (runTicks k startedWorld).player.height := by
        rw [h5, h6, h7]
        simp only [GRAVITY, initialPlayer]
        linarith
      obtain ⟨s1, s2, s3, s4⟩ :=
        stepPlayer_clamp ((runTicks k startedWorld).animationFrame + 1)
          (runTicks k startedWorld).player hy
      have hrw : runTicks (k + 1) startedWorld =
          tick 0 0 0 (runTicks k startedWorld) := rfl
      rw [hrw, ht]
      refine ⟨h1, h2, ?_, ?_, ?_, s2, s4.trans h7, s3, ?_, ?_, ?_⟩
      · show (runTicks k startedWorld).gameState.score + 1 = k + 1
        rw [h3]
      · show min ((runTicks k startedWorld).gameState.speed +
            SPEED_INCREMENT) 12 = 4 + ((k + 1 : ℕ) : ℚ) * (2/1000)
        have hkq : (k:ℚ) ≤ 3999 := by
          exact_mod_cast (by omega : k ≤ 3999)
        rw [h4, min_eq_left (by simp only [SPEED_INCREMENT]; linarith)]
        simp only [SPEED_INCREMENT]
        push_cast
        ring
      · show (stepPlayer ((runTicks k startedWorld).animationFrame + 1)
            (runTicks k startedWorld).player).y = initialPlayer.y
        rw [s1, h7]
        rfl
      · show (stepObstacles (runTicks k startedWorld).gameState.speed 0
            (runTicks k startedWorld).lastObstacle 0 0
            (runTicks k startedWorld).obstacles).1 = []
        rw [h9, h10, stepObstacles_no_spawn_nil]
      · show (stepObstacles (runTicks k startedWorld).gameState.speed 0
            (runTicks k startedWorld).lastObstacle 0 0
            (runTicks k startedWorld).obstacles).2 = 0
        rw [h9, h10, stepObstacles_no_spawn_nil]
      · show (runTicks k startedWorld).animationFrame + 1 = k + 1
        rw [h11]

/-- C7: from a freshly started game (speed 4, score 0, player on the
ground), 200 ticks with no jump and no spawn leave the player on-ground
after every tick, make the internal score 200, the displayed score
`⌊200 / 10⌋ = 20`, and the speed exactly `4 + 200 × 0.002 = 4.4`. -/
theorem scenario_200_ticks :
    (∀ k, 1 ≤ k → k ≤ 200 →
      (runTicks k startedWorld).player.onGround = true) ∧
    (runTicks 200 startedWorld).gameState.score = 200 ∧
    displayedScore (runTicks 200 startedWorld).gameState = 20 ∧
    (runTicks 200 startedWorld).gameState.speed = 4 + 200 * (2/1000) ∧
    (runTicks 200 startedWorld).gameState.speed = 22/5 := by
  have h200 := runTicks_started_fields 200 (by norm_num)
  refine ⟨?_, h200.2.2.1, ?_, ?_, ?_⟩
  · intro k h1 h2
    exact (runTicks_started_fields k (by omega)).2.2.2.2.2.2.2.1
  · unfold displayedScore
    rw [h200.2.2.1]
  · rw [h200.2.2.2.1]
    norm_num
  · rw [h200.2.2.2.1]
    norm_num

/-- C7, witness: the on-ground conclusion instantiated at the last tick
of the scenario. -/
theorem scenario_200_ticks_witness :
    (runTicks 200 startedWorld).player.onGround = true :=
  scenario_200_ticks.1 200 (by norm_num) (by norm_num)

theorem jumpWorld_player :
    jumpWorld.player =
      { initialPlayer with
        velocityY := JUMP_FORCE, isJumping := true, onGround := false } := rfl

theorem runTicks_jump_airborne (k : ℕ) (hk : k ≤ 38) :
    (runTicks k jumpWorld).gameState.isPlaying = true ∧
    (runTicks k jumpWorld).gameState.isGameOver = false ∧
    (runTicks k jumpWorld).player.y =
      280 + (2/5) * (k:ℚ)^2 - (78/5) * (k:ℚ) ∧
    (runTicks k jumpWorld).player.velocityY = -16 + (4/5) * (k:ℚ) ∧
    (runTicks k jumpWorld).player.height = 40 ∧
    (runTicks k jumpWorld).player.onGround = false ∧
    (runTicks k jumpWorld).obstacles = [] ∧
    (runTicks k jumpWorld).lastObstacle = 0 ∧
    (runTicks k jumpWorld).animationFrame = k := by
  induction k with
  | zero =>
      refine ⟨rfl, rfl, ?_, ?_, rfl, rfl, rfl, rfl, rfl⟩
      · rw [show (runTicks 0 jumpWorld).player = jumpWorld.player from rfl,
          jumpWorld_player]
        norm_num [initialPlayer, CANVAS_HEIGHT, GROUND_HEIGHT]
      · rw [show (runTicks 0 jumpWorld).player = jumpWorld.player from rfl,
          jumpWorld_player]
        norm_num [JUMP_FORCE]
  | succ k ih =>
      have hk' : k ≤ 38 := Nat.le_of_succ_le hk
      obtain ⟨h1, h2, h3, h4, h5, h6, h7, h8, h9⟩ := ih hk'
      have hq0 : (0:ℚ) ≤ (k:ℚ) := Nat.cast_nonneg k
      have hq37 : (k:ℚ) ≤ 37 := by
        exact_mod_cast (by omega : k ≤ 37)
      have ht := tick_playing 0 0 0 (runTicks k jumpWorld) h1 h2
      have hcond : (runTicks k jumpWorld).player.y +
          ((runTicks k jumpWorld).player.velocityY + GRAVITY) <
          CANVAS_HEIGHT - GROUND_HEIGHT -
            (runTicks k jumpWorld).player.height := by
        rw [h3, h4, h5]
        simp only [GRAVITY, CANVAS_HEIGHT, GROUND_HEIGHT]
        nlinarith
      obtain ⟨s1, s2, s3, s4⟩ :=
        stepPlayer_air ((runTicks k jumpWorld).animationFrame + 1)
          (runTicks k jumpWorld).player hcond
      have hrw : runTicks (k + 1) jumpWorld =
          tick 0 0 0 (runTicks k jumpWorld) := rfl
      rw [hrw, ht]
      refine ⟨h1, h2, ?_, ?_, s4.trans h5, s3, ?_, ?_, ?_⟩
      · show (stepPlayer ((runTicks k jumpWorld).animationFrame + 1)
            (runTicks k jumpWorld).player).y =
          280 + (2/5) * ((k + 1 : ℕ) : ℚ)^2 - (78/5) * ((k + 1 : ℕ) : ℚ)
        rw [s1, h3, h4]
        simp only [GRAVITY]
        push_cast
        ring
      · show (stepPlayer ((runTicks k jumpWorld).animationFrame + 1)
            (runTicks k jumpWorld).player).velocityY =
          -16 + (4/5) * ((k + 1 : ℕ) : ℚ)
        rw [s2, h4]
        simp only [GRAVITY]
        push_cast
        ring
      · show (stepObstacles (runTicks k jumpWorld).gameState.speed 0
            (runTicks k jumpWorld).lastObstacle 0 0
            (runTicks k jumpWorld).obstacles).1 = []
        rw [h7, h8, stepObstacles_no_spawn_nil]
      · show (stepObstacles (runTicks k jumpWorld).gameState.speed 0
            (runTicks k jumpWorld).lastObstacle 0 0
            (runTicks k jumpWorld).obstacles).2 = 0
        rw [h7, h8, stepObstacles_no_spawn_nil]
      · show (runTicks k jumpWorld).animationFrame + 1 = k + 1
        rw [h9]

/-- C8: each tick adds gravity to the velocity first and then adds the
updated velocity to y (semi-implicit Euler); from the started game, one
accepted jump (impulse −16, gravity +0.8 per tick) clears on-ground
immediately, the player stays airborne through tick 38, and on tick 39
— when the cumulative displacement returns y to the clamp — on-ground
becomes true again with y exactly at the clamp and velocity 0. -/
theorem jump_parabola :
    (∀ (animationFrame : ℕ) (p : Player),
      p.y + (p.velocityY + GRAVITY) <
          CANVAS_HEIGHT - GROUND_HEIGHT - p.height →
      (stepPlayer animationFrame p).velocityY = p.velocityY + GRAVITY ∧
      (stepPlayer animationFrame p).y = p.y + (p.velocityY + GRAVITY)) ∧
    jumpWorld.player.onGround = false ∧
    (∀ k, 1 ≤ k → k ≤ 38 →
      (runTicks k jumpWorld).player.onGround = false) ∧
    (runTicks 39 jumpWorld).player.onGround = true ∧
    (runTicks 39 jumpWorld).player.velocityY = 0 ∧
    (runTicks 39 jumpWorld).player.y =
      CANVAS_HEIGHT - GROUND_HEIGHT - (runTicks 39 jumpWorld).player.height := by
  have h38 := runTicks_jump_airborne 38 le_rfl
  obtain ⟨h1, h2, h3, h4, h5, h6, h7, h8, h9⟩ := h38
  have ht := tick_playing 0 0 0 (runTicks 38 jumpWorld) h1 h2
  have hcond : (runTicks 38 jumpWorld).player.y +
      ((runTicks 38 jumpWorld).player.velocityY + GRAVITY) ≥
      CANVAS_HEIGHT - GROUND_HEIGHT -
        (runTicks 38 jumpWorld).player.height := by
    rw [h3, h4, h5]
    simp only [GRAVITY, CANVAS_HEIGHT, GROUND_HEIGHT]
    norm_num
  obtain ⟨s1, s2, s3, s4⟩ :=
    stepPlayer_clamp ((runTicks 38 jumpWorld).animationFrame + 1)
      (runTicks 38 jumpWorld).player hcond
  have hrw : runTicks 39 jumpWorld =
      tick 0 0 0 (runTicks 38 jumpWorld) := rfl
  refine ⟨?_, rfl, ?_, ?_, ?_, ?_⟩
  · intro animationFrame p h
    exact ⟨(stepPlayer_air animationFrame p h).2.1,
      (stepPlayer_air animationFrame p h).1⟩
  · intro k hk1 hk2
    exact (runTicks_jump_airborne k hk2).2.2.2.2.2.1
  · rw [hrw, ht]
    exact s3
  · rw [hrw, ht]
    exact s2
  · rw [hrw, ht]
    show (stepPlayer ((runTicks 38 jumpWorld).animationFrame + 1)
        (runTicks 38 jumpWorld).player).y =
      CANVAS_HEIGHT - GROUND_HEIGHT -
        (stepPlayer ((runTicks 38 jumpWorld).animationFrame + 1)
          (runTicks 38 jumpWorld).player).height
    rw [s1, s4]

/-- C8, witness: the airborne and landing conclusions at ticks 1 and 39
of the jump scenario. -/
theorem jump_parabola_witness :
    (runTicks 1 jumpWorld).player.onGround = false ∧
    (runTicks 39 jumpWorld).player.onGround = true :=
  ⟨jump_parabola.2.2.1 1 le_rfl (by norm_num), jump_parabola.2.2.2.1⟩

end PixelRunner
